import Mathlib

/- A shallow embedding of the access-tracking reactive proxy library in
   src/use-observable.ts: the JS values the library distinguishes, the slice
   of the MobX Reaction interface it uses, the ObserverAdministration record,
   the proxy factory makeReactiveProxy with its get and has traps, the
   trackAccess dispatch, and the reaction lifecycle glue of useObservable. -/

namespace UseObservable

/-- JS runtime values at the granularity the library distinguishes them:
null, non-object primitives, booleans, functions, React elements, plain
objects (identified by the id of the underlying object), and tracking
proxies (a fresh proxy id plus the id of the original target they wrap). -/
inductive JSVal where
  | vnull
  | prim (n : Nat)
  | bool (b : Bool)
  | func (id : Nat)
  | element (id : Nat)
  | obj (id : Nat)
  | proxy (pid : Nat) (targetId : Nat)
deriving DecidableEq

/-- The JS test typeof v === "object"; note that typeof null is "object",
which is why the source tests obj === null separately. -/
def isObjectType : JSVal → Bool
  | .vnull => true
  | .element _ => true
  | .obj _ => true
  | .proxy _ _ => true
  | _ => false

/-- React's isValidElement predicate. Elements are never proxied, so only the
element constructor satisfies it. -/
def isValidElement : JSVal → Bool
  | .element _ => true
  | _ => false

/-- Whether the hidden ORIGINAL_SYMBOL key is present on a value: the has trap
of every tracking proxy reports it as present, and no other value carries it. -/
def hasOriginalSymbol : JSVal → Bool
  | .proxy _ _ => true
  | _ => false

/-- isReactiveProxy from the source: typeof obj === "object" and obj !== null
and ORIGINAL_SYMBOL in obj. -/
def isReactiveProxy (v : JSVal) : Bool :=
  isObjectType v && !(v == JSVal.vnull) && hasOriginalSymbol v

/-- getOriginal from the source: when the value is a reactive proxy, reading
ORIGINAL_SYMBOL through the get trap returns the wrapped target object;
otherwise the value is returned unchanged. -/
def getOriginal (v : JSVal) : JSVal :=
  if isReactiveProxy v then
    match v with
    | .proxy _ t => JSVal.obj t
    | w => w
  else v

/-- The id of the underlying plain object a value stands for; used when a new
proxy records which target it wraps. -/
def originalId : JSVal → Nat
  | .obj i => i
  | .proxy _ t => t
  | _ => 0

/-- Whether a value is a tracking proxy (by constructor). -/
def JSVal.isProxy : JSVal → Bool
  | .proxy _ _ => true
  | _ => false

/-- Whether a value is a function. -/
def JSVal.isFunc : JSVal → Bool
  | .func _ => true
  | _ => false

/-- The slice of a MobX Reaction the library touches: the dependency list
observing_ (observable ids), the isDisposed flag, and an id rid standing for
the JS object identity of the reaction instance. -/
structure Reaction where
  rid : Nat
  observing : List Nat
  isDisposed : Bool
deriving DecidableEq

/-- MobX Reaction.track: a disposed reaction ignores the call; otherwise the
callback runs and observing_ is replaced with exactly the observables it read
(the reads argument supplies them). -/
def Reaction.track (r : Reaction) (reads : List Nat) : Reaction :=
  if r.isDisposed then r else { r with observing := reads }

/-- MobX Reaction.dispose: idempotent; clears the dependency list and sets the
disposed flag. -/
def Reaction.dispose (r : Reaction) : Reaction :=
  if r.isDisposed then r else { r with observing := [], isDisposed := true }

/-- ReactionExtended.appendTracked: when the global trackingContext is already
this reaction the callback just runs inside the ambient capture (its reads are
collected by the enclosing track call, modelled at that enclosing level);
otherwise it remembers the previous observing_ list, calls track (which
replaces the list with the new reads), and then concatenates the previous list
back on, keeping the previous list unchanged when the callback read no
observables. -/
def Reaction.appendTracked (r : Reaction) (trackingContextIsSelf : Bool)
    (reads : List Nat) : Reaction :=
  if trackingContextIsSelf then r
  else
    let prevObserving := r.observing
    let r2 := r.track reads
    { r2 with
        observing :=
          if 0 < r2.observing.length then r2.observing ++ prevObserving
          else prevObserving }

/-- ObserverAdministration. JS symbols are modelled by naturals minted from
versionCounter, reaction identities from nextRid, proxy identities from
nextPid; the WeakMap cache is an association list keyed by the wrapped input
value; registration with the observer finalization registry is a flag. -/
structure Adm where
  reaction : Option Reaction
  onStoreChange : Option Nat
  stateVersion : Nat
  versionCounter : Nat
  inRender : Bool
  cache : List (JSVal × JSVal)
  registered : Bool
  nextRid : Nat
  nextPid : Nat
deriving DecidableEq

/-- createReaction: a brand-new reaction with a fresh identity, an empty
dependency list and a cleared disposed flag. (Its effect callback is the
reactionEffect step below.) -/
def createReaction (adm : Adm) : Reaction :=
  { rid := adm.nextRid, observing := [], isDisposed := false }

/-- The effect body installed by createReaction: mint a fresh stateVersion
symbol and invoke onStoreChange when mounted (the Bool reports whether the
callback was invoked). -/
def reactionEffect (adm : Adm) : Adm × Bool :=
  ({ adm with
      stateVersion := adm.versionCounter
      versionCounter := adm.versionCounter + 1 },
   adm.onStoreChange.isSome)

/-- The record built by createObserverAdministration (the debug name is
omitted; it plays no role in any claim). -/
def createObserverAdministration : Adm :=
  { reaction := none
    onStoreChange := none
    stateVersion := 0
    versionCounter := 1
    inRender := false
    cache := []
    registered := false
    nextRid := 0
    nextPid := 0 }

/-- One trackAccess dispatch against a present reaction while in render mode:
appendTracked when observing_.length is truthy (non-zero), plain track when
the list is empty. At this top level the global trackingContext is not this
reaction, so appendTracked is entered with that flag false. -/
def trackAccessStep (r : Reaction) (reads : List Nat) : Reaction :=
  if r.observing.length != 0 then r.appendTracked false reads
  else r.track reads

/-- trackAccess: returns the updated reaction, whether the read callback ran,
and the value handed back. In render mode with the reaction lost (null), the
optional chaining skips both capture calls, the callback never runs, and the
initial null value is returned. Outside render mode the callback simply runs
with no tracking. -/
def trackAccess (inRender : Bool) (reaction : Option Reaction) (reads : List Nat)
    (cbValue : JSVal) : Option Reaction × Bool × JSVal :=
  if inRender then
    match reaction with
    | some r => (some (trackAccessStep r reads), true, cbValue)
    | none => (none, false, JSVal.vnull)
  else (reaction, true, cbValue)

/-- The bypass test at the top of makeReactiveProxy: not in a render, or the
value is not object-typed, or it is null, or it is a valid React element. -/
def bypassCond (adm : Adm) (v : JSVal) : Bool :=
  !adm.inRender || !isObjectType v || v == JSVal.vnull || isValidElement v

/-- makeReactiveProxy: the bypass returns the input unchanged with no state
change; a cache hit returns the previously created proxy; otherwise a fresh
proxy over getOriginal v (unwrapping to avoid nested proxies) is created,
stored in the cache under the input value, and returned. -/
def Adm.makeReactiveProxy (adm : Adm) (v : JSVal) : Adm × JSVal :=
  if bypassCond adm v then (adm, v)
  else
    match List.lookup v adm.cache with
    | some p => (adm, p)
    | none =>
      let p := JSVal.proxy adm.nextPid (originalId (getOriginal v))
      ({ adm with cache := (v, p) :: adm.cache, nextPid := adm.nextPid + 1 }, p)

/-- The reaction block of useObservable: a missing reaction is replaced by a
brand-new one which is registered with the observer finalization registry; an
existing reaction is disposed and its disposed flag cleared in place, with no
re-registration and no new reaction identity. -/
def reactionLifecycleStep (adm : Adm) : Adm :=
  match adm.reaction with
  | none =>
    { adm with
        reaction := some (createReaction adm)
        nextRid := adm.nextRid + 1
        registered := true }
  | some r => { adm with reaction := some { r.dispose with isDisposed := false } }

/-- One useObservable call against an existing administration record: mark
in-render, run the reaction block, and wrap the store. -/
def useObservableRender (adm : Adm) (store : JSVal) : Adm × JSVal :=
  let a1 : Adm := { adm with inRender := true }
  let a2 := reactionLifecycleStep a1
  a2.makeReactiveProxy store

/-- The useLayoutEffect body: after commit the instance leaves render mode. -/
def layoutEffect (adm : Adm) : Adm :=
  { adm with inRender := false }

/-- The subscribe closure stored on the administration: unregister the pending
finalization-registry entry, store the notification callback, and when the
reaction was lost recreate it and mint a fresh stateVersion symbol. -/
def subscribe (adm : Adm) (cb : Nat) : Adm :=
  let a1 : Adm := { adm with registered := false, onStoreChange := some cb }
  match a1.reaction with
  | none =>
    { a1 with
        reaction := some (createReaction a1)
        nextRid := a1.nextRid + 1
        stateVersion := a1.versionCounter
        versionCounter := a1.versionCounter + 1 }
  | some _ => a1

/-- The cleanup closure returned by subscribe: clear the callback, dispose the
reaction and clear the reference. The second component is the final state of
the reaction object the cleanup disposed, if one was present. -/
def subscribeCleanup (adm : Adm) : Adm × Option Reaction :=
  ({ adm with onStoreChange := none, reaction := none },
   adm.reaction.map Reaction.dispose)

/-- getSnapshot: the current stateVersion token. -/
def getSnapshot (adm : Adm) : Nat :=
  adm.stateVersion

/-- Property keys: the hidden ORIGINAL_SYMBOL or an ordinary key. -/
inductive PropKey where
  | originalSymbol
  | key (k : Nat)
deriving DecidableEq

/-- An own-property descriptor as the two ! tests in the get trap see it: an
absent writable (accessor property) reads as false, like writable false. -/
structure PropDesc where
  writable : Bool
  configurable : Bool
deriving DecidableEq

/-- The possible shapes of a get-trap result: the unwrapped target for the
ORIGINAL_SYMBOL key; for a non-observable target a bound function, a raw value
or a recursively wrapped value; for an observable target a tracking method
wrapper or a tracked (recursively wrapped) value. -/
inductive GetOutcome where
  | unwrapped (tid : Nat)
  | bound (fid tid : Nat)
  | raw (v : JSVal)
  | recursed (v : JSVal)
  | wrapper (fid tid : Nat)
  | tracked (v : JSVal)
deriving DecidableEq

/-- The proxy get trap. Environment answers are parameters: tid is the target
object id, targetIsObservable the isObservable(target) answer, propValue the
Reflect.get result, desc the own-property descriptor (none when absent), and
reads the observables reported while the read callback runs. -/
def getTrap (adm : Adm) (tid : Nat) (prop : PropKey) (targetIsObservable : Bool)
    (propValue : JSVal) (desc : Option PropDesc) (reads : List Nat) :
    Adm × GetOutcome :=
  if prop == PropKey.originalSymbol then (adm, .unwrapped tid)
  else if !targetIsObservable then
    match propValue with
    | .func f => (adm, .bound f tid)
    | v =>
      let d := desc.getD { writable := false, configurable := false }
      if !d.writable && !d.configurable then (adm, .raw v)
      else
        let ap := adm.makeReactiveProxy v
        (ap.1, .recursed ap.2)
  else
    let tav := trackAccess adm.inRender adm.reaction reads propValue
    let adm2 : Adm := { adm with reaction := tav.1 }
    match tav.2.2 with
    | .func f => (adm2, .wrapper f tid)
    | v =>
      let ap := adm2.makeReactiveProxy v
      (ap.1, .tracked ap.2)

/-- Invoking the wrapper the get trap returns for a function-valued property
of an observable target: outside render mode every argument is first unwrapped
with getOriginal; the bound original function runs inside trackAccess, and its
return value goes through makeReactiveProxy. fBody models the original
function: applied to the function id, the owning target id it was bound to and
the processed arguments, it yields the observable reads the call performs and
its return value. -/
def invokeMethodWrapper (adm : Adm) (fid tid : Nat)
    (fBody : Nat → Nat → List JSVal → List Nat × JSVal) (args : List JSVal) :
    Adm × JSVal :=
  let processed := if adm.inRender then args else args.map getOriginal
  let br := fBody fid tid processed
  let tav := trackAccess adm.inRender adm.reaction br.1 br.2
  let adm2 : Adm := { adm with reaction := tav.1 }
  adm2.makeReactiveProxy tav.2.2

/-- The proxy has trap: the ORIGINAL_SYMBOL key is always reported present
without entering trackAccess (the third component reports whether trackAccess
ran); any other key goes through trackAccess around Reflect.has, so a lost
reaction makes the trap's null result coerce to false. -/
def hasTrap (adm : Adm) (prop : PropKey) (present : Bool) (reads : List Nat) :
    Adm × Bool × Bool :=
  if prop == PropKey.originalSymbol then (adm, true, false)
  else
    let tav := trackAccess adm.inRender adm.reaction reads (JSVal.bool present)
    ({ adm with reaction := tav.1 }, tav.2.2 == JSVal.bool true, true)

/-- The reaction as the first tracked access of a render sees it: a fresh
reaction when none survived, otherwise the existing reaction disposed and
un-disposed in place by the hook body. -/
def renderBegin (prev : Option Reaction) (nextRid : Nat) : Reaction :=
  match prev with
  | none => { rid := nextRid, observing := [], isDisposed := false }
  | some r => { r.dispose with isDisposed := false }

/-- A render as the reaction sees it: the begin step followed by one
trackAccess dispatch per tracked access, each access contributing the list of
observables its read callback reports. -/
def renderRun (prev : Option Reaction) (nextRid : Nat)
    (accesses : List (List Nat)) : Reaction :=
  List.foldl trackAccessStep (renderBegin prev nextRid) accesses

/-- Which capture variant each tracked access of a render uses: true when the
dispatch picks appendTracked, false when it picks the primary track call. -/
def renderVariantsAux : Reaction → List (List Nat) → List Bool
  | _, [] => []
  | r, a :: rest =>
    (r.observing.length != 0) :: renderVariantsAux (trackAccessStep r a) rest

/-- Specification-level dependency accumulation: the reads of each access,
newest first, in front of the starting list o. -/
def depsFrom (o : List Nat) (accesses : List (List Nat)) : List Nat :=
  List.foldl (fun s a => a ++ s) o accesses

/-- Specification-level variant prediction: an access uses the appending
variant exactly when the dependencies accumulated so far are non-empty. -/
def variantsFrom (o : List Nat) : List (List Nat) → List Bool
  | [] => []
  | a :: rest => (o.length != 0) :: variantsFrom (a ++ o) rest

/-- Cache well-formedness: every cached value is a proxy over the original of
its key. The empty cache satisfies it and makeReactiveProxy preserves it. -/
def cacheWF (c : List (JSVal × JSVal)) : Prop :=
  ∀ k p, List.lookup k c = some p →
    ∃ pid, p = JSVal.proxy pid (originalId (getOriginal k))

/-- A trackAccess dispatch never changes the disposed flag. -/
theorem trackAccessStep_isDisposed (r : Reaction) (a : List Nat) :
    (trackAccessStep r a).isDisposed = r.isDisposed := by
  unfold trackAccessStep Reaction.appendTracked Reaction.track
  cases hd : r.isDisposed <;> split <;> simp [hd]

/-- On an undisposed reaction, one trackAccess dispatch prepends the access's
reads to the dependency list, in both the track and the appendTracked branch. -/
theorem trackAccessStep_observing (r : Reaction) (a : List Nat)
    (h : r.isDisposed = false) :
    (trackAccessStep r a).observing = a ++ r.observing := by
  unfold trackAccessStep Reaction.appendTracked Reaction.track
  simp only [h, Bool.false_eq_true, if_false]
  by_cases hobs : r.observing.length != 0
  · simp only [hobs, if_true]
    by_cases ha : 0 < a.length
    · simp [ha]
    · have : a = [] := List.length_eq_zero.mp (Nat.eq_zero_of_not_pos ha)
      simp [this]
  · have : r.observing = [] := by
      simpa using List.length_eq_zero.mp (by simpa using hobs)
    simp [hobs, this]

/-- depsFrom unfolds one access at a time. -/
theorem depsFrom_cons (o : List Nat) (a : List Nat) (rest : List (List Nat)) :
    depsFrom o (a :: rest) = depsFrom (a ++ o) rest := rfl

/-- Folding the trackAccess dispatch over the accesses of a render leaves the
dependency list equal to the accumulated reads in front of the starting list. -/
theorem foldl_trackAccessStep_observing (accesses : List (List Nat))
    (r : Reaction) (h : r.isDisposed = false) :
    (List.foldl trackAccessStep r accesses).observing = depsFrom r.observing accesses := by
  induction accesses generalizing r with
  | nil => rfl
  | cons a rest ih =>
    rw [List.foldl_cons, ih (trackAccessStep r a)
      (by rw [trackAccessStep_isDisposed]; exact h),
      trackAccessStep_observing r a h, depsFrom_cons]

/-- The fold never changes the disposed flag. -/
theorem foldl_trackAccessStep_isDisposed (accesses : List (List Nat)) (r : Reaction) :
    (List.foldl trackAccessStep r accesses).isDisposed = r.isDisposed := by
  induction accesses generalizing r with
  | nil => rfl
  | cons a rest ih => rw [List.foldl_cons, ih, trackAccessStep_isDisposed]

/-- Membership in the accumulated dependencies is membership in the start list
or in some access's reads. -/
theorem mem_depsFrom (x : Nat) (o : List Nat) (accesses : List (List Nat)) :
    x ∈ depsFrom o accesses ↔ x ∈ o ∨ ∃ l, l ∈ accesses ∧ x ∈ l := by
  induction accesses generalizing o with
  | nil => simp [depsFrom]
  | cons a rest ih =>
    rw [depsFrom_cons, ih]
    simp only [List.mem_append, List.mem_cons]
    constructor
    · rintro (⟨hx | hx⟩ | ⟨l, hl, hx⟩)
      · exact Or.inr ⟨a, Or.inl rfl, hx⟩
      · exact Or.inl hx
      · exact Or.inr ⟨l, Or.inr hl, hx⟩
    · rintro (hx | ⟨l, hl | hl, hx⟩)
      · exact Or.inl (Or.inr hx)
      · exact Or.inl (Or.inl (hl ▸ hx))
      · exact Or.inr ⟨l, hl, hx⟩

/-- On an undisposed reaction, the capture variants the dispatch picks are the
specification-level prediction: append exactly when the dependency list
accumulated so far is non-empty. -/
theorem renderVariantsAux_eq (accesses : List (List Nat)) (r : Reaction)
    (h : r.isDisposed = false) :
    renderVariantsAux r accesses = variantsFrom r.observing accesses := by
  induction accesses generalizing r with
  | nil => rfl
  | cons a rest ih =>
    simp only [renderVariantsAux, variantsFrom]
    rw [ih (trackAccessStep r a) (by rw [trackAccessStep_isDisposed]; exact h),
      trackAccessStep_observing r a h]

/-- The reaction a render begins with is never disposed. -/
theorem renderBegin_isDisposed (prev : Option Reaction) (n : Nat) :
    (renderBegin prev n).isDisposed = false := by
  cases prev with
  | none => rfl
  | some r =>
    simp [renderBegin]

/-- Beginning a render from an undisposed surviving reaction clears its
dependency list (the dispose call wipes it). -/
theorem renderBegin_some_observing (r : Reaction) (n : Nat)
    (h : r.isDisposed = false) :
    (renderBegin (some r) n).observing = [] := by
  simp [renderBegin, Reaction.dispose, h]

/-- The reaction block leaves the cache untouched. -/
theorem reactionLifecycleStep_cache (adm : Adm) :
    (reactionLifecycleStep adm).cache = adm.cache := by
  cases h : adm.reaction <;> simp [reactionLifecycleStep, h]

/-- The reaction block leaves the render flag untouched. -/
theorem reactionLifecycleStep_inRender (adm : Adm) :
    (reactionLifecycleStep adm).inRender = adm.inRender := by
  cases h : adm.reaction <;> simp [reactionLifecycleStep, h]

/-- makeReactiveProxy leaves the render flag untouched. -/
theorem makeReactiveProxy_inRender (adm : Adm) (v : JSVal) :
    ((adm.makeReactiveProxy v).1).inRender = adm.inRender := by
  unfold Adm.makeReactiveProxy
  split
  · rfl
  · split <;> rfl

/-- makeReactiveProxy leaves the reaction untouched. -/
theorem makeReactiveProxy_reaction (adm : Adm) (v : JSVal) :
    ((adm.makeReactiveProxy v).1).reaction = adm.reaction := by
  unfold Adm.makeReactiveProxy
  split
  · rfl
  · split <;> rfl

/-- The bypass test only reads the render flag from the administration. -/
theorem bypassCond_congr (a1 a2 : Adm) (v : JSVal)
    (h : a1.inRender = a2.inRender) : bypassCond a1 v = bypassCond a2 v := by
  simp [bypassCond, h]

/-- The empty cache is well-formed. -/
theorem cacheWF_nil : cacheWF [] := by
  intro k p h
  simp [List.lookup] at h

/-- C1 (amended): over a render begun with an empty dependency list, the
reaction's final dependency list is exactly the reads accumulated by that
render's tracked accesses (so, as a set, the union of the observables they
read), a following render's final list depends only on that following render's
accesses (nothing survives from the prior render), and each access uses the
appending variant exactly when the dependency list accumulated so far is
non-empty — hence the first tracked access always uses the primary capture
call, but a later access still uses the primary call when every earlier access
of the render captured zero observables. -/
theorem c1_render_tracking (prev : Option Reaction) (n : Nat)
    (accesses : List (List Nat))
    (h0 : (renderBegin prev n).observing = []) :
    (renderRun prev n accesses).observing = depsFrom [] accesses
    ∧ (∀ x, x ∈ (renderRun prev n accesses).observing ↔ ∃ l, l ∈ accesses ∧ x ∈ l)
    ∧ renderVariantsAux (renderBegin prev n) accesses = variantsFrom [] accesses
    ∧ (∀ accesses2 : List (List Nat),
        (renderRun (some (renderRun prev n accesses)) n accesses2).observing
          = depsFrom [] accesses2) := by
  have hd := renderBegin_isDisposed prev n
  have h1 : (renderRun prev n accesses).observing = depsFrom [] accesses := by
    rw [renderRun, foldl_trackAccessStep_observing accesses (renderBegin prev n) hd, h0]
  refine ⟨h1, ?_, ?_, ?_⟩
  · intro x
    rw [h1, mem_depsFrom]
    simp
  · rw [renderVariantsAux_eq accesses (renderBegin prev n) hd, h0]
  · intro accesses2
    have hd2 : (renderRun prev n accesses).isDisposed = false := by
      rw [renderRun, foldl_trackAccessStep_isDisposed]; exact hd
    rw [renderRun, foldl_trackAccessStep_observing accesses2 _
      (renderBegin_isDisposed _ n), renderBegin_some_observing _ n hd2]

/-- C1 witness: a concrete two-access render: the dependency list ends as the
accumulated reads of the render and the variants match the prediction. -/
theorem c1_witness :
    (renderRun none 0 [[1], [2, 3]]).observing = depsFrom [] [[1], [2, 3]]
    ∧ renderVariantsAux (renderBegin none 0) [[1], [2, 3]]
        = variantsFrom [] [[1], [2, 3]] :=
  ⟨(c1_render_tracking none 0 [[1], [2, 3]] rfl).1,
   (c1_render_tracking none 0 [[1], [2, 3]] rfl).2.2.1⟩

/-- C1 counterexample: in a fresh render whose first tracked access captures
no observables and whose second captures observable 5, the second (subsequent)
access goes through the primary track call, not the appending variant, because
the dependency list is still empty; the claim predicts the variant pattern
[false, true] (first primary, every subsequent appending). -/
theorem c1_counterexample :
    renderVariantsAux (renderBegin none 0) [[], [5]] = [false, false]
    ∧ renderVariantsAux (renderBegin none 0) [[], [5]] ≠ [false, true] := by
  decide

/-- C2: makeReactiveProxy returns its input unchanged, with the administration
state untouched (no cache entry, no tracking), exactly when not in render
mode, or the value is not object-typed, or it is null, or it is a valid React
element; in every other case the returned value is a proxy. -/
theorem c2_bypass_rule (adm : Adm) (v : JSVal) (hwf : cacheWF adm.cache) :
    (bypassCond adm v = true → adm.makeReactiveProxy v = (adm, v))
    ∧ (bypassCond adm v = false → ((adm.makeReactiveProxy v).2).isProxy = true) := by
  constructor
  · intro h
    simp [Adm.makeReactiveProxy, h]
  · intro h
    unfold Adm.makeReactiveProxy
    simp only [h, Bool.false_eq_true, if_false]
    cases hl : List.lookup v adm.cache with
    | none => simp [JSVal.isProxy]
    | some p =>
      obtain ⟨pid, hp⟩ := hwf v p hl
      simp [hp, JSVal.isProxy]

/-- C2 witness: a primitive outside render mode is bypassed unchanged; a plain
object in render mode comes back as a proxy. -/
theorem c2_witness :
    createObserverAdministration.makeReactiveProxy (JSVal.prim 1)
      = (createObserverAdministration, JSVal.prim 1)
    ∧ (({ createObserverAdministration with inRender := true } : Adm).makeReactiveProxy
        (JSVal.obj 2)).2.isProxy = true :=
  ⟨(c2_bypass_rule createObserverAdministration (JSVal.prim 1) cacheWF_nil).1 (by decide),
   (c2_bypass_rule { createObserverAdministration with inRender := true }
      (JSVal.obj 2) cacheWF_nil).2 (by decide)⟩

/-- C3: within one administration, wrapping the same (non-bypassed) value a
second time is a cache hit: it returns exactly the proxy created by the first
call and leaves the administration unchanged, so one underlying object keeps
one proxy identity for the lifetime of the instance. -/
theorem c3_cache_identity (adm : Adm) (v : JSVal) (h : bypassCond adm v = false) :
    (adm.makeReactiveProxy v).1.makeReactiveProxy v
      = ((adm.makeReactiveProxy v).1, (adm.makeReactiveProxy v).2) := by
  have h2 : bypassCond (adm.makeReactiveProxy v).1 v = false := by
    rw [bypassCond_congr (adm.makeReactiveProxy v).1 adm v
      (makeReactiveProxy_inRender adm v)]
    exact h
  conv_lhs => rw [Adm.makeReactiveProxy]
  rw [if_neg (by simp [h2])]
  cases hl : List.lookup v adm.cache with
  | some p =>
    have he : adm.makeReactiveProxy v = (adm, p) := by
      unfold Adm.makeReactiveProxy
      simp [h, hl]
    rw [he] at h2 ⊢
    simp [hl]
  | none =>
    have he : adm.makeReactiveProxy v
        = ({ adm with
              cache := (v, JSVal.proxy adm.nextPid (originalId (getOriginal v)))
                :: adm.cache,
              nextPid := adm.nextPid + 1 },
           JSVal.proxy adm.nextPid (originalId (getOriginal v))) := by
      unfold Adm.makeReactiveProxy
      simp [h, hl]
    rw [he] at h2 ⊢
    simp [List.lookup]

/-- C3 witness: wrapping object 3 twice in render mode returns the identical
proxy the first call created, with no administration change. -/
theorem c3_witness :
    (({ createObserverAdministration with inRender := true } : Adm).makeReactiveProxy
        (JSVal.obj 3)).1.makeReactiveProxy (JSVal.obj 3)
      = ((({ createObserverAdministration with inRender := true } : Adm).makeReactiveProxy
            (JSVal.obj 3)).1,
         (({ createObserverAdministration with inRender := true } : Adm).makeReactiveProxy
            (JSVal.obj 3)).2) :=
  c3_cache_identity { createObserverAdministration with inRender := true }
    (JSVal.obj 3) (by decide)

/-- C10: with the render flag set and the reaction null, trackAccess skips
both capture calls through the optional chaining, never runs its read
callback, and hands back the initial null value; the observable get trap
therefore yields null rather than the live property value. -/
theorem c10_lost_reaction_null (adm : Adm) (tid : Nat) (prop : PropKey)
    (reads : List Nat) (pv : JSVal) (desc : Option PropDesc)
    (h1 : adm.inRender = true) (h2 : adm.reaction = none)
    (hp : prop ≠ PropKey.originalSymbol) :
    trackAccess adm.inRender adm.reaction reads pv = (none, false, JSVal.vnull)
    ∧ (getTrap adm tid prop true pv desc reads).2 = GetOutcome.tracked JSVal.vnull := by
  have ht : trackAccess adm.inRender adm.reaction reads pv
      = (none, false, JSVal.vnull) := by
    rw [h1, h2]
    rfl
  refine ⟨ht, ?_⟩
  unfold getTrap
  rw [if_neg (by simpa using hp)]
  simp only [Bool.not_true, if_false, ht, Bool.false_eq_true]
  simp [Adm.makeReactiveProxy, bypassCond]

/-- C10 witness: a concrete administration in render mode with the reaction
cleared: the callback does not run and the get trap returns null although the
live property value is the primitive 7. -/
theorem c10_witness :
    trackAccess ({ createObserverAdministration with inRender := true } : Adm).inRender
        ({ createObserverAdministration with inRender := true } : Adm).reaction
        [4] (JSVal.prim 7)
      = (none, false, JSVal.vnull)
    ∧ (getTrap { createObserverAdministration with inRender := true } 2
        (PropKey.key 0) true (JSVal.prim 7) none [4]).2
      = GetOutcome.tracked JSVal.vnull :=
  c10_lost_reaction_null { createObserverAdministration with inRender := true }
    2 (PropKey.key 0) [4] (JSVal.prim 7) none rfl rfl (by decide)

/-- A convenient concrete administration that has been through one render:
its reaction is present. -/
def admWithReaction : Adm :=
  reactionLifecycleStep createObserverAdministration

/-- C4: the hook's reaction block leaves exactly one reaction active. Finding
none, it installs a brand-new reaction (fresh identity, empty dependencies,
not disposed) and registers with the leak-safety-net finalization registry;
finding one, it never recreates it: it disposes it and clears the disposed
flag in place, keeping the reaction identity, the registration state and the
identity counter unchanged, and wiping the dependency list of a previously
undisposed reaction. -/
theorem c4_reaction_lifecycle (adm : Adm) :
    ((reactionLifecycleStep adm).reaction).isSome = true
    ∧ (adm.reaction = none →
        reactionLifecycleStep adm
          = { adm with
                reaction := some (createReaction adm)
                nextRid := adm.nextRid + 1
                registered := true }
        ∧ createReaction adm
          = { rid := adm.nextRid, observing := [], isDisposed := false })
    ∧ (∀ r, adm.reaction = some r →
        reactionLifecycleStep adm
          = { adm with reaction := some { r.dispose with isDisposed := false } }
        ∧ (∀ r2, (reactionLifecycleStep adm).reaction = some r2 →
            r2.rid = r.rid ∧ r2.isDisposed = false
            ∧ (r.isDisposed = false → r2.observing = []))) := by
  refine ⟨?_, ?_, ?_⟩
  · cases h : adm.reaction <;> simp [reactionLifecycleStep, h]
  · intro h
    exact ⟨by simp [reactionLifecycleStep, h], rfl⟩
  · intro r h
    refine ⟨by simp [reactionLifecycleStep, h], ?_⟩
    intro r2 h2
    simp only [reactionLifecycleStep, h, Option.some.injEq] at h2
    subst h2
    refine ⟨?_, rfl, ?_⟩
    · cases hd : r.isDisposed <;> simp [Reaction.dispose, hd]
    · intro hd
      simp [Reaction.dispose, hd]

/-- C4 witness: a fresh administration gets a brand-new registered reaction;
an administration that already has one gets the same reaction back, disposed
and un-disposed in place. -/
theorem c4_witness :
    reactionLifecycleStep createObserverAdministration
      = { createObserverAdministration with
            reaction := some (createReaction createObserverAdministration)
            nextRid := createObserverAdministration.nextRid + 1
            registered := true }
    ∧ reactionLifecycleStep admWithReaction
      = { admWithReaction with
            reaction := some
              { Reaction.dispose { rid := 0, observing := [], isDisposed := false } with
                  isDisposed := false } } :=
  ⟨((c4_reaction_lifecycle createObserverAdministration).2.1 rfl).1,
   ((c4_reaction_lifecycle admWithReaction).2.2
      { rid := 0, observing := [], isDisposed := false } rfl).1⟩

/-- C5: subscribe cancels the pending finalization-registry registration,
stores the notification callback, and exactly when the reaction is absent it
creates a new reaction and replaces the snapshot token with a fresh value
(fresh as long as the token freshness invariant stateVersion < versionCounter
holds); when a reaction is present, neither the reaction nor the token change.
The returned cleanup clears the callback, disposes the reaction, clears the
reference, and running it a second time leaves the state unchanged. -/
theorem c5_subscribe_contract (adm : Adm) (cb : Nat)
    (hfresh : adm.stateVersion < adm.versionCounter) :
    (subscribe adm cb).registered = false
    ∧ (subscribe adm cb).onStoreChange = some cb
    ∧ (adm.reaction = none →
        ((subscribe adm cb).reaction).isSome = true
        ∧ (subscribe adm cb).stateVersion ≠ adm.stateVersion)
    ∧ (∀ r, adm.reaction = some r →
        (subscribe adm cb).reaction = some r
        ∧ (subscribe adm cb).stateVersion = adm.stateVersion)
    ∧ (subscribeCleanup (subscribe adm cb)).1.onStoreChange = none
    ∧ (subscribeCleanup (subscribe adm cb)).1.reaction = none
    ∧ (∀ r, (subscribeCleanup (subscribe adm cb)).2 = some r → r.isDisposed = true)
    ∧ (subscribeCleanup (subscribeCleanup (subscribe adm cb)).1).1
        = (subscribeCleanup (subscribe adm cb)).1 := by
  refine ⟨?_, ?_, ?_, ?_, ?_, ?_, ?_, ?_⟩
  · cases h : adm.reaction <;> simp [subscribe, h]
  · cases h : adm.reaction <;> simp [subscribe, h]
  · intro h
    constructor
    · simp [subscribe, h]
    · simp only [subscribe, h]
      exact fun hv => absurd (hv ▸ hfresh) (lt_irrefl _)
  · intro r h
    constructor <;> simp [subscribe, h]
  · simp [subscribeCleanup]
  · simp [subscribeCleanup]
  · intro r h
    simp only [subscribeCleanup, Option.map_eq_some'] at h
    obtain ⟨r0, _, hr0⟩ := h
    subst hr0
    cases hd : r0.isDisposed <;> simp [Reaction.dispose, hd]
  · simp [subscribeCleanup]

/-- C5 witness: subscribing a fresh administration with callback 7 cancels the
registration, stores the callback, creates the missing reaction, replaces the
snapshot token, and the cleanup clears both fields. -/
theorem c5_witness :
    (subscribe createObserverAdministration 7).registered = false
    ∧ (subscribe createObserverAdministration 7).onStoreChange = some 7
    ∧ ((subscribe createObserverAdministration 7).reaction).isSome = true
    ∧ (subscribe createObserverAdministration 7).stateVersion
        ≠ createObserverAdministration.stateVersion
    ∧ (subscribeCleanup (subscribe createObserverAdministration 7)).1.reaction = none :=
  ⟨(c5_subscribe_contract createObserverAdministration 7 (by decide)).1,
   (c5_subscribe_contract createObserverAdministration 7 (by decide)).2.1,
   ((c5_subscribe_contract createObserverAdministration 7 (by decide)).2.2.1 rfl).1,
   ((c5_subscribe_contract createObserverAdministration 7 (by decide)).2.2.1 rfl).2,
   (c5_subscribe_contract createObserverAdministration 7 (by decide)).2.2.2.2.2.1⟩

/-- A non-bypassed makeReactiveProxy call always hands back a proxy value,
whether it hits the cache (well-formedness supplies the shape) or creates a
fresh one. -/
theorem makeReactiveProxy_isProxy (adm : Adm) (v : JSVal) (hwf : cacheWF adm.cache)
    (h : bypassCond adm v = false) :
    ((adm.makeReactiveProxy v).2).isProxy = true := by
  unfold Adm.makeReactiveProxy
  rw [if_neg (by simp [h])]
  cases hl : List.lookup v adm.cache with
  | none => simp [JSVal.isProxy]
  | some p =>
    obtain ⟨pid, hp⟩ := hwf v p hl
    simp [hp, JSVal.isProxy]

/-- Every proxy value satisfies isReactiveProxy. -/
theorem isReactiveProxy_of_isProxy (v : JSVal) (h : v.isProxy = true) :
    isReactiveProxy v = true := by
  cases v <;> simp [JSVal.isProxy] at h
  simp [isReactiveProxy, isObjectType, hasOriginalSymbol]

/-- Unwrapping the result of makeReactiveProxy recovers a non-proxy input: the
bypass returns it unchanged, and a created or cached proxy wraps exactly the
input object. -/
theorem makeReactiveProxy_getOriginal (adm : Adm) (v : JSVal) (hwf : cacheWF adm.cache)
    (hv : isReactiveProxy v = false) :
    getOriginal (adm.makeReactiveProxy v).2 = v := by
  by_cases hb : bypassCond adm v = true
  · simp [Adm.makeReactiveProxy, hb, getOriginal, hv]
  · have hb' : bypassCond adm v = false := by simpa using hb
    cases v with
    | obj s =>
      unfold Adm.makeReactiveProxy
      rw [if_neg hb]
      cases hl : List.lookup (JSVal.obj s) adm.cache with
      | some p =>
        obtain ⟨pid, hp⟩ := hwf _ _ hl
        subst hp
        simp [getOriginal, isReactiveProxy, isObjectType, hasOriginalSymbol, originalId]
      | none =>
        simp [getOriginal, isReactiveProxy, isObjectType, hasOriginalSymbol, originalId]
    | proxy pid t => simp [isReactiveProxy, isObjectType, hasOriginalSymbol] at hv
    | vnull => simp [bypassCond] at hb'
    | prim n => simp [bypassCond, isObjectType] at hb'
    | bool b => simp [bypassCond, isObjectType] at hb'
    | func i => simp [bypassCond, isObjectType] at hb'
    | element i => simp [bypassCond, isValidElement] at hb'

/-- C6: on a target that is not registered as observable, the get trap never
enters trackAccess (the reaction is untouched for every property value); a
function-valued property comes back bound to the target without wrapping; a
property that is both non-writable and non-configurable comes back as the raw
value; every other property value is passed through makeReactiveProxy. -/
theorem c6_non_observable_get (adm : Adm) (tid fv : Nat) (prop : PropKey)
    (v : JSVal) (w c : Bool) (desc : Option PropDesc) (reads : List Nat)
    (hp : prop ≠ PropKey.originalSymbol) (hv : v.isFunc = false) :
    (getTrap adm tid prop false (JSVal.func fv) desc reads).2 = GetOutcome.bound fv tid
    ∧ (getTrap adm tid prop false v
        (some { writable := false, configurable := false }) reads).2 = GetOutcome.raw v
    ∧ (getTrap adm tid prop false v none reads).2 = GetOutcome.raw v
    ∧ ((w || c) = true →
        (getTrap adm tid prop false v
            (some { writable := w, configurable := c }) reads).2
          = GetOutcome.recursed (adm.makeReactiveProxy v).2)
    ∧ (∀ pv d, (getTrap adm tid prop false pv d reads).1.reaction = adm.reaction) := by
  have hps : (prop == PropKey.originalSymbol) = false := by
    simpa using hp
  refine ⟨?_, ?_, ?_, ?_, ?_⟩
  · simp [getTrap, hps]
  · cases v <;> simp [JSVal.isFunc] at hv ⊢ <;> simp [getTrap, hps]
  · cases v <;> simp [JSVal.isFunc] at hv ⊢ <;> simp [getTrap, hps]
  · intro hwc
    have hcond : (!w && !c) = false := by
      cases w <;> cases c <;> simp_all
    cases v <;> simp [JSVal.isFunc] at hv ⊢ <;> simp [getTrap, hps, hcond]
  · intro pv d
    cases pv <;>
      simp [getTrap, hps] <;>
      split <;>
      simp [makeReactiveProxy_reaction]

/-- C6 witness: on a non-observable target, a function property is bound, a
frozen property is raw, a writable object property is recursively wrapped, and
the reaction is untouched. -/
theorem c6_witness :
    (getTrap createObserverAdministration 2 (PropKey.key 0) false
        (JSVal.func 9) none [3]).2 = GetOutcome.bound 9 2
    ∧ (getTrap createObserverAdministration 2 (PropKey.key 0) false (JSVal.obj 4)
        (some { writable := false, configurable := false }) [3]).2
      = GetOutcome.raw (JSVal.obj 4)
    ∧ (getTrap createObserverAdministration 2 (PropKey.key 0) false (JSVal.obj 4)
        (some { writable := true, configurable := false }) [3]).2
      = GetOutcome.recursed
          (createObserverAdministration.makeReactiveProxy (JSVal.obj 4)).2
    ∧ (getTrap createObserverAdministration 2 (PropKey.key 0) false (JSVal.obj 4)
        (some { writable := true, configurable := false }) [3]).1.reaction
      = createObserverAdministration.reaction :=
  ⟨(c6_non_observable_get createObserverAdministration 2 9 (PropKey.key 0)
      (JSVal.obj 4) true false none [3] (by decide) rfl).1,
   (c6_non_observable_get createObserverAdministration 2 9 (PropKey.key 0)
      (JSVal.obj 4) true false none [3] (by decide) rfl).2.1,
   (c6_non_observable_get createObserverAdministration 2 9 (PropKey.key 0)
      (JSVal.obj 4) true false none [3] (by decide) rfl).2.2.2.1 rfl,
   (c6_non_observable_get createObserverAdministration 2 9 (PropKey.key 0)
      (JSVal.obj 4) true false none [3] (by decide) rfl).2.2.2.2
      (JSVal.obj 4) (some { writable := true, configurable := false })⟩

/-- C7: a function-valued property read on an observable target returns the
method wrapper, never the bare function, whenever the read callback actually
ran (outside render mode, or with the reaction present). Invoking the wrapper
outside render mode first maps every argument through getOriginal, runs the
bound original untracked, and hands its return value back unwrapped (the
makeReactiveProxy bypass); invoking it in render mode passes the arguments
unchanged, appends the call's observable reads to the live reaction's
dependency list, and passes the return value through makeReactiveProxy. -/
theorem c7_method_wrapper (adm : Adm) (tid fv fid : Nat) (prop : PropKey)
    (desc : Option PropDesc) (reads : List Nat)
    (fBody : Nat → Nat → List JSVal → List Nat × JSVal) (args : List JSVal)
    (hp : prop ≠ PropKey.originalSymbol) :
    ((adm.inRender = false ∨ (adm.reaction).isSome = true) →
      (getTrap adm tid prop true (JSVal.func fv) desc reads).2
        = GetOutcome.wrapper fv tid)
    ∧ (adm.inRender = false →
        invokeMethodWrapper adm fid tid fBody args
          = (adm, (fBody fid tid (args.map getOriginal)).2))
    ∧ (adm.inRender = true → ∀ r, adm.reaction = some r →
        invokeMethodWrapper adm fid tid fBody args
          = ({ adm with
                reaction := some (trackAccessStep r (fBody fid tid args).1) } :
              Adm).makeReactiveProxy (fBody fid tid args).2
        ∧ (r.isDisposed = false →
            (trackAccessStep r (fBody fid tid args).1).observing
              = (fBody fid tid args).1 ++ r.observing)) := by
  have hps : (prop == PropKey.originalSymbol) = false := by
    simpa using hp
  refine ⟨?_, ?_, ?_⟩
  · rintro (h | h)
    · simp [getTrap, hps, trackAccess, h]
    · cases hr : adm.reaction with
      | none => rw [hr] at h; simp at h
      | some r =>
        cases hir : adm.inRender <;> simp [getTrap, hps, trackAccess, hir, hr]
  · intro h
    simp [invokeMethodWrapper, trackAccess, h, Adm.makeReactiveProxy, bypassCond]
    rw [← h]
  · intro h r hr
    constructor
    · simp [invokeMethodWrapper, trackAccess, h, hr]
    · intro hd
      exact trackAccessStep_observing r (fBody fid tid args).1 hd

/-- C7 witness: the get trap hands back the wrapper for function 9 bound to
target 2, and invoking a wrapper outside render mode unwraps its proxy
argument before the call: the body sees the original object, so the arity-like
count of proxy arguments it receives is zero and the raw return value comes
back. -/
theorem c7_witness :
    (getTrap admWithReaction 2 (PropKey.key 0) true (JSVal.func 9) none [3]).2
      = GetOutcome.wrapper 9 2
    ∧ invokeMethodWrapper createObserverAdministration 9 2
        (fun _ _ as => ([4], JSVal.prim (as.countP JSVal.isProxy))) [JSVal.proxy 1 5]
      = (createObserverAdministration, JSVal.prim 0) := by
  have h := c7_method_wrapper admWithReaction 2 9 9 (PropKey.key 0) none [3]
    (fun _ _ as => ([4], JSVal.prim (as.countP JSVal.isProxy))) [JSVal.proxy 1 5]
    (by decide)
  have h2 := c7_method_wrapper createObserverAdministration 2 9 9 (PropKey.key 0)
    none [3] (fun _ _ as => ([4], JSVal.prim (as.countP JSVal.isProxy)))
    [JSVal.proxy 1 5] (by decide)
  refine ⟨h.1 (Or.inr rfl), (h2.2.1 rfl).trans ?_⟩
  decide

/-- C8 (amended): unwrapping the hook's return value yields the store by
identity for every store that is not itself a reactive proxy, and getOriginal
returns every non-proxy value unchanged (it is a pure function of its
argument). When the store is already a reactive proxy the factory deliberately
wraps the underlying original instead (nested-proxy avoidance), so the
round-trip returns that original, not the proxy that was passed in. -/
theorem c8_unwrap_round_trip (adm : Adm) (store : JSVal) (hwf : cacheWF adm.cache)
    (hstore : isReactiveProxy store = false) :
    getOriginal (useObservableRender adm store).2 = store
    ∧ (∀ v : JSVal, isReactiveProxy v = false → getOriginal v = v) := by
  constructor
  · exact makeReactiveProxy_getOriginal
      (reactionLifecycleStep { adm with inRender := true }) store
      (by rw [reactionLifecycleStep_cache]; exact hwf) hstore
  · intro v hv
    simp [getOriginal, hv]

/-- C8 witness: the round-trip at a plain object store. -/
theorem c8_witness :
    getOriginal (useObservableRender createObserverAdministration (JSVal.obj 5)).2
      = JSVal.obj 5 :=
  (c8_unwrap_round_trip createObserverAdministration (JSVal.obj 5) cacheWF_nil
    (by decide)).1

/-- C8 counterexample: passing a value that is already a reactive proxy (proxy
id 3 over target object 7) breaks the stated round-trip: the hook wraps the
unwrapped original, so getOriginal returns object 7, not the proxy that was
passed in. -/
theorem c8_counterexample :
    getOriginal (useObservableRender createObserverAdministration (JSVal.proxy 3 7)).2
      ≠ JSVal.proxy 3 7
    ∧ getOriginal (useObservableRender createObserverAdministration (JSVal.proxy 3 7)).2
      = JSVal.obj 7 := by
  decide

/-- C9: isReactiveProxy holds exactly of proxy values: it is true of the proxy
the hook returns for a plain object store, false for the unwrapped store, for
plain objects, for primitives and for null; and the has trap reports the
identity-tag key present without entering trackAccess. -/
theorem c9_identity_tag (adm : Adm) (s n : Nat) (hwf : cacheWF adm.cache) :
    isReactiveProxy (useObservableRender adm (JSVal.obj s)).2 = true
    ∧ isReactiveProxy (JSVal.obj s) = false
    ∧ isReactiveProxy (JSVal.prim n) = false
    ∧ isReactiveProxy JSVal.vnull = false
    ∧ (∀ (adm2 : Adm) (b : Bool) (reads : List Nat),
        hasTrap adm2 PropKey.originalSymbol b reads = (adm2, true, false)) := by
  refine ⟨?_, ?_, ?_, ?_, ?_⟩
  · refine isReactiveProxy_of_isProxy _ ?_
    refine makeReactiveProxy_isProxy _ _ (by rw [reactionLifecycleStep_cache]; exact hwf) ?_
    simp [bypassCond, reactionLifecycleStep_inRender, isObjectType, isValidElement]
  · simp [isReactiveProxy, isObjectType, hasOriginalSymbol]
  · simp [isReactiveProxy, isObjectType]
  · simp [isReactiveProxy]
  · intro adm2 b reads
    rfl

/-- C9 witness: the tag test at a concrete store and the untracked has-trap
answer for the tag key. -/
theorem c9_witness :
    isReactiveProxy (useObservableRender createObserverAdministration (JSVal.obj 5)).2 = true
    ∧ isReactiveProxy (JSVal.obj 5) = false
    ∧ hasTrap createObserverAdministration PropKey.originalSymbol true [1]
        = (createObserverAdministration, true, false) :=
  ⟨(c9_identity_tag createObserverAdministration 5 2 cacheWF_nil).1,
   (c9_identity_tag createObserverAdministration 5 2 cacheWF_nil).2.1,
   (c9_identity_tag createObserverAdministration 5 2 cacheWF_nil).2.2.2.2
     createObserverAdministration true [1]⟩

end UseObservable
